import Mathlib

/-!
Verification of the GoRAGlite core against its specification.

The definitions below are a shallow embedding of the Go source:

* package vector (internal/search/search.go): vector serialization is modelled
  at the bit level — a float32 value is represented by its 32-bit IEEE-754 bit
  pattern (a natural number below 2^32), because Go Float32bits and
  Float32frombits are mutually inverse on bit patterns, so serialization
  behaviour is settled exactly at this level;
* cosine similarity and normalization (internal/search/search.go,
  internal/vectorizer/structure.go): float arithmetic is modelled over the
  reals, keeping the control flow (length guards, zero-norm guards) of the
  source;
* the workflow engine (the workflow package), DB.Transaction
  (internal/db/db.go), Merger.mergeRun (internal/merger/merger.go) and
  Orchestrator.Ingest (internal/orchestrator/orchestrator.go) are modelled as
  explicit state passing over record types that mirror the SQL rows the code
  reads and writes.
-/

/-! ## Vector serialization (package vector, internal/search/search.go) -/

/-- Little-endian encoding of one 32-bit word into four bytes, as in
binary.LittleEndian.PutUint32 used by Vector.Bytes. -/
def putUint32LE (x : Nat) : List Nat :=
  [x % 256, x / 256 % 256, x / 65536 % 256, x / 16777216 % 256]

/-- Decoding of four little-endian bytes into one 32-bit word, as in
binary.LittleEndian.Uint32 used by FromBytes. -/
def getUint32LE (b0 b1 b2 b3 : Nat) : Nat :=
  b0 + 256 * b1 + 65536 * b2 + 16777216 * b3

/-- Vector.Bytes: serializes the vector to a little-endian packed byte list,
four bytes per element. Elements are float32 bit patterns. -/
def vectorBytes (v : List Nat) : List Nat :=
  (v.map putUint32LE).flatten

/-- The element-decoding loop of FromBytes: reads the input four bytes at a
time, little-endian. -/
def fromBytesLoop : List Nat → List Nat
  | b0 :: b1 :: b2 :: b3 :: rest => getUint32LE b0 b1 b2 b3 :: fromBytesLoop rest
  | _ => []

/-- FromBytes: deserializes a vector from bytes; returns none (Go nil) when
the input length is not a multiple of four. -/
def fromBytes (data : List Nat) : Option (List Nat) :=
  if data.length % 4 ≠ 0 then none
  else some (fromBytesLoop data)

theorem putUint32LE_length (x : Nat) : (putUint32LE x).length = 4 := rfl

theorem getUint32LE_putUint32LE (x : Nat) (h : x < 4294967296) :
    getUint32LE (x % 256) (x / 256 % 256) (x / 65536 % 256) (x / 16777216 % 256) = x := by
  unfold getUint32LE
  omega

theorem fromBytesLoop_cons4 (b0 b1 b2 b3 : Nat) (rest : List Nat) :
    fromBytesLoop (b0 :: b1 :: b2 :: b3 :: rest)
      = getUint32LE b0 b1 b2 b3 :: fromBytesLoop rest := rfl

theorem vectorBytes_cons (x : Nat) (v : List Nat) :
    vectorBytes (x :: v) = putUint32LE x ++ vectorBytes v := by
  simp [vectorBytes]

theorem vectorBytes_length (v : List Nat) :
    (vectorBytes v).length = 4 * v.length := by
  induction v with
  | nil => rfl
  | cons x v ih =>
      rw [vectorBytes_cons, List.length_append, putUint32LE_length, ih]
      simp [Nat.mul_succ, Nat.add_comm]

theorem fromBytesLoop_vectorBytes (v : List Nat) (h : ∀ x ∈ v, x < 4294967296) :
    fromBytesLoop (vectorBytes v) = v := by
  induction v with
  | nil => rfl
  | cons x v ih =>
      rw [vectorBytes_cons, putUint32LE]
      simp only [List.cons_append, List.nil_append]
      rw [fromBytesLoop_cons4]
      rw [getUint32LE_putUint32LE x (h x (List.mem_cons_self x v))]
      rw [ih (fun y hy => h y (List.mem_cons_of_mem x hy))]

theorem fromBytesLoop_length (data : List Nat) :
    (fromBytesLoop data).length = data.length / 4 := by
  match data with
  | [] => rfl
  | [a] => simp [fromBytesLoop]
  | [a, b] => simp [fromBytesLoop]
  | [a, b, c] => simp [fromBytesLoop]
  | a :: b :: c :: d :: rest =>
      have ih := fromBytesLoop_length rest
      rw [fromBytesLoop_cons4]
      simp only [List.length_cons]
      omega

/-- C8: Vector serialization round-trips: for every vector v of float32 values
(bit patterns below 2^32), FromBytes (v.Bytes()) returns a vector equal to v
element-wise, and v.Bytes() is a little-endian packed array of length
4 times the length of v. -/
theorem vector_bytes_roundtrip (v : List Nat) (h : ∀ x ∈ v, x < 4294967296) :
    fromBytes (vectorBytes v) = some v ∧ (vectorBytes v).length = 4 * v.length := by
  refine ⟨?_, vectorBytes_length v⟩
  unfold fromBytes
  rw [vectorBytes_length]
  simp [Nat.mul_mod_right, fromBytesLoop_vectorBytes v h]

/-- Witness for C8 at the concrete vector with bit patterns 0, 4294967295
and 12345. -/
theorem vector_bytes_roundtrip_witness :
    fromBytes (vectorBytes [0, 4294967295, 12345]) = some [0, 4294967295, 12345] :=
  (vector_bytes_roundtrip [0, 4294967295, 12345] (by decide)).1

/-- C10: FromBytes returns nil exactly when the input length is not a multiple
of four; otherwise it returns a vector of length len(data)/4, so
deserialization never reads past the end of its input. -/
theorem fromBytes_length_safety (data : List Nat) :
    (fromBytes data = none ↔ data.length % 4 ≠ 0) ∧
    (∀ v, fromBytes data = some v → v.length = data.length / 4) := by
  constructor
  · constructor
    · intro h
      by_contra hmod
      simp [fromBytes, hmod] at h
    · intro hmod
      simp [fromBytes, hmod]
  · intro v hv
    unfold fromBytes at hv
    by_cases hmod : data.length % 4 ≠ 0
    · simp [hmod] at hv
    · simp [hmod] at hv
      rw [← hv, fromBytesLoop_length]

/-- Witness for C10 at concrete inputs of length 3 (not a multiple of four)
and length 8. -/
theorem fromBytes_length_safety_witness :
    fromBytes [7, 8, 9] = none ∧
    ∀ v, fromBytes [1, 0, 0, 0, 2, 0, 0, 0] = some v → v.length = 2 := by
  refine ⟨(fromBytes_length_safety [7, 8, 9]).1.mpr (by decide), ?_⟩
  intro v hv
  exact (fromBytes_length_safety [1, 0, 0, 0, 2, 0, 0, 0]).2 v hv

/-! ## Cosine similarity and L2 normalization (real-valued model of the
float arithmetic in internal/search/search.go and
internal/vectorizer/structure.go) -/

/-- Sum of squares of a vector, the accumulator normA and normB compute in the
source loops. -/
def sumSq (v : List ℝ) : ℝ := (v.map (fun x => x * x)).sum

/-- Dot product accumulated pairwise over the common indices, as in the source
loops over vectors of equal length. -/
def dotList (a b : List ℝ) : ℝ := ((a.zip b).map (fun p => p.1 * p.2)).sum

/-- The pad helper of package search: a fresh zero slice of the requested size
with the input copied over its head. -/
def pad (vec : List ℝ) (size : Nat) : List ℝ :=
  (vec ++ List.replicate (size - vec.length) 0).take size

/-- L2 norm, Vector.Norm in the vector package. -/
noncomputable def l2norm (v : List ℝ) : ℝ := Real.sqrt (sumSq v)

/-- CosineSimilarity of package search (internal/search/search.go): pads the
shorter vector with zeros at its tail when the lengths differ, returns 0 when
either padded vector has zero norm, otherwise the cosine. -/
noncomputable def searchCosineSimilarity (a b : List ℝ) : ℝ :=
  let a2 := if a.length < b.length then pad a b.length else a
  let b2 := if b.length < a.length then pad b a.length else b
  if sumSq a2 = 0 ∨ sumSq b2 = 0 then 0
  else dotList a2 b2 / (Real.sqrt (sumSq a2) * Real.sqrt (sumSq b2))

/-- Vector.CosineSimilarity of the vector package: returns 0 outright when the
lengths differ, and 0 when either norm is zero. -/
noncomputable def vectorCosineSimilarity (v other : List ℝ) : ℝ :=
  if v.length ≠ other.length then 0
  else if l2norm v = 0 ∨ l2norm other = 0 then 0
  else dotList v other / (l2norm v * l2norm other)

/-- Modelled from the spec similarity contract: the cosine of a pair,
a·b / (‖a‖·‖b‖); used to compare the code against the claim wording. -/
noncomputable def specCosine (a b : List ℝ) : ℝ :=
  dotList a b / (l2norm a * l2norm b)

theorem pad_length_self (v : List ℝ) : pad v v.length = v := by
  simp [pad]

theorem sumSq_nonneg (v : List ℝ) : 0 ≤ sumSq v := by
  apply List.sum_nonneg
  intro x hx
  simp only [List.mem_map] at hx
  obtain ⟨y, _, rfl⟩ := hx
  exact mul_self_nonneg y

theorem specCosine_zero_left (a b : List ℝ) (h : sumSq a = 0) :
    specCosine a b = 0 := by
  simp [specCosine, l2norm, h]

theorem specCosine_zero_right (a b : List ℝ) (h : sumSq b = 0) :
    specCosine a b = 0 := by
  simp [specCosine, l2norm, h]

/-- C7 (amended): on vectors of unequal lengths, the package-level
CosineSimilarity of package search returns the cosine of the pair obtained by
zero-padding the shorter vector at its tail to the longer length, while the
Vector.CosineSimilarity method of the vector package returns the fixed
value 0. -/
theorem cosineSimilarity_unequal_lengths (a b : List ℝ) (h : a.length ≠ b.length) :
    searchCosineSimilarity a b
        = specCosine (pad a (max a.length b.length)) (pad b (max a.length b.length))
      ∧ vectorCosineSimilarity a b = 0 := by
  constructor
  · rcases Nat.lt_or_ge a.length b.length with hlt | hge
    · have hmax : max a.length b.length = b.length := Nat.max_eq_right (Nat.le_of_lt hlt)
      have hnb : ¬ b.length < a.length := Nat.not_lt.mpr (Nat.le_of_lt hlt)
      rw [hmax, pad_length_self b]
      unfold searchCosineSimilarity
      simp only [if_pos hlt, if_neg hnb]
      by_cases hz : sumSq (pad a b.length) = 0 ∨ sumSq b = 0
      · rw [if_pos hz]
        rcases hz with hz | hz
        · rw [specCosine_zero_left _ _ hz]
        · rw [specCosine_zero_right _ _ hz]
      · rw [if_neg hz]
        rfl
    · have hlt : b.length < a.length := Nat.lt_of_le_of_ne hge (fun he => h he.symm)
      have hmax : max a.length b.length = a.length := Nat.max_eq_left (Nat.le_of_lt hlt)
      have hna : ¬ a.length < b.length := Nat.not_lt.mpr (Nat.le_of_lt hlt)
      rw [hmax, pad_length_self a]
      unfold searchCosineSimilarity
      simp only [if_pos hlt, if_neg hna]
      by_cases hz : sumSq a = 0 ∨ sumSq (pad b a.length) = 0
      · rw [if_pos hz]
        rcases hz with hz | hz
        · rw [specCosine_zero_left _ _ hz]
        · rw [specCosine_zero_right _ _ hz]
      · rw [if_neg hz]
        rfl
  · simp [vectorCosineSimilarity, h]

/-- Witness for C7 (amended) at the concrete pair [1] and [1, 0]. -/
theorem cosineSimilarity_unequal_lengths_witness :
    searchCosineSimilarity [(1 : ℝ)] [1, 0]
        = specCosine (pad [(1 : ℝ)] 2) (pad [(1 : ℝ), 0] 2)
      ∧ vectorCosineSimilarity [(1 : ℝ)] [1, 0] = 0 :=
  cosineSimilarity_unequal_lengths [(1 : ℝ)] [1, 0] (by decide)

/-- Counterexample for C7 as stated: at the pair [1] and [1, 0] the
Vector.CosineSimilarity method returns the fixed value 0, whereas the cosine
of the zero-padded pair is 1, so the method does not return the cosine of the
padded pair. -/
theorem cosineSimilarity_fixed_value_counterexample :
    vectorCosineSimilarity [(1 : ℝ)] [1, 0] = 0 ∧
    specCosine (pad [(1 : ℝ)] 2) (pad [(1 : ℝ), 0] 2) = 1 ∧
    vectorCosineSimilarity [(1 : ℝ)] [1, 0]
      ≠ specCosine (pad [(1 : ℝ)] 2) (pad [(1 : ℝ), 0] 2) := by
  have hpad1 : pad [(1 : ℝ)] 2 = [1, 0] := by
    simp [pad, List.replicate]
  have hpad2 : pad [(1 : ℝ), 0] 2 = [1, 0] := by
    simp [pad, List.replicate]
  have hsum : sumSq [(1 : ℝ), 0] = 1 := by
    simp [sumSq]
  have hdot : dotList [(1 : ℝ), 0] [(1 : ℝ), 0] = 1 := by
    simp [dotList]
  have hcos : specCosine (pad [(1 : ℝ)] 2) (pad [(1 : ℝ), 0] 2) = 1 := by
    rw [hpad1, hpad2]
    rw [specCosine, l2norm, hsum, hdot, Real.sqrt_one]
    norm_num
  refine ⟨by simp [vectorCosineSimilarity], hcos, ?_⟩
  rw [hcos]
  simp [vectorCosineSimilarity]

/-- Vector.Normalize of the vector package (internal/search/search.go); the
normalize helper of internal/vectorizer/structure.go is the same algorithm
performed in place, guarding on the squared norm being positive, which over
the reals is equivalent to the norm being nonzero. Both return the input
unchanged when the norm is zero. -/
noncomputable def normalizeVec (v : List ℝ) : List ℝ :=
  if l2norm v = 0 then v else v.map (fun x => x / l2norm v)

theorem sumSq_map_div (v : List ℝ) (c : ℝ) :
    sumSq (v.map (fun x => x / c)) = sumSq v / (c * c) := by
  induction v with
  | nil => simp [sumSq]
  | cons x v ih =>
      simp only [List.map_cons, sumSq, List.sum_cons] at ih ⊢
      rw [ih, div_mul_div_comm, add_div]

/-- C9 (amended): in the exact real model, for every vector of nonzero L2
norm, normalization yields a vector of L2 norm exactly 1 (so in particular
within 1e-5 of 1); the zero-norm (for example all-zero) input is returned
unchanged by the source, not normalized. -/
theorem normalize_unit_norm (v : List ℝ) (h : l2norm v ≠ 0) :
    l2norm (normalizeVec v) = 1 := by
  have hs : sumSq v ≠ 0 := by
    intro h0
    exact h (by simp [l2norm, h0])
  have hnn := sumSq_nonneg v
  unfold normalizeVec
  rw [if_neg h]
  unfold l2norm
  rw [sumSq_map_div]
  rw [Real.mul_self_sqrt hnn, div_self hs, Real.sqrt_one]

/-- Witness for C9 (amended) at the concrete vector [3, 4], of norm 5. -/
theorem normalize_unit_norm_witness :
    l2norm (normalizeVec [(3 : ℝ), 4]) = 1 := by
  refine normalize_unit_norm [(3 : ℝ), 4] ?_
  have hsum : sumSq [(3 : ℝ), 4] = 25 := by
    simp [sumSq]
    norm_num
  rw [l2norm, hsum]
  exact ne_of_gt (Real.sqrt_pos.mpr (by norm_num))

/-- Counterexample for C9 as stated: the all-zero vector is returned unchanged
by Normalize, its norm stays 0, and 0 is not within 1e-5 of 1. -/
theorem normalize_zero_vector_counterexample :
    normalizeVec [(0 : ℝ), 0, 0] = [0, 0, 0] ∧
    ¬ |l2norm (normalizeVec [(0 : ℝ), 0, 0]) - 1| ≤ 1 / 100000 := by
  have hsum : sumSq [(0 : ℝ), 0, 0] = 0 := by
    simp [sumSq]
  have hl : l2norm [(0 : ℝ), 0, 0] = 0 := by
    simp [l2norm, hsum]
  have hnv : normalizeVec [(0 : ℝ), 0, 0] = [0, 0, 0] := by
    simp [normalizeVec, hl]
  refine ⟨hnv, ?_⟩
  rw [hnv, hl]
  norm_num

/-! ## Workflow engine (the workflow package, run loop and step helpers) -/

/-- OnEmptyAction of the workflow package. -/
inductive OnEmptyAction
  | OnEmptyContinue
  | OnEmptySkipRemaining
  | OnEmptyFail
  deriving DecidableEq

/-- RunStatus of the workflow package. -/
inductive RunStatus
  | RunStatusPending
  | RunStatusRunning
  | RunStatusCompleted
  | RunStatusFailed
  | RunStatusMerged
  deriving DecidableEq

/-- The behaviour of one step as Engine.Run observes it: executing the step
either fails with an error or leaves some number of rows in the output
table. -/
structure EngineStepModel where
  onEmpty : OnEmptyAction
  result : Except String Nat

/-- The step loop of Engine.Run, returning the zero-based indices of the
steps the engine actually executed and the final run status. On a step error
or an empty result with policy fail the run transitions to failed and stops;
for OnEmptySkipRemaining the source uses a break statement inside the Go
switch statement, which exits only the switch, so the loop proceeds with the
next step. -/
def engineRunFrom : Nat → List EngineStepModel → List Nat × RunStatus
  | _, [] => ([], RunStatus.RunStatusCompleted)
  | i, s :: rest =>
    match s.result with
    | Except.error _ => ([i], RunStatus.RunStatusFailed)
    | Except.ok rowsOut =>
      if rowsOut = 0 then
        match s.onEmpty with
        | OnEmptyAction.OnEmptyFail => ([i], RunStatus.RunStatusFailed)
        | OnEmptyAction.OnEmptySkipRemaining =>
            let r := engineRunFrom (i + 1) rest
            (i :: r.1, r.2)
        | OnEmptyAction.OnEmptyContinue =>
            let r := engineRunFrom (i + 1) rest
            (i :: r.1, r.2)
      else
        let r := engineRunFrom (i + 1) rest
        (i :: r.1, r.2)

/-- Engine.Run restricted to its step loop and status transitions. -/
def engineRun (steps : List EngineStepModel) : List Nat × RunStatus :=
  engineRunFrom 0 steps

/-- C2: evaluation of Engine.Run on a two-step workflow whose first step
produces zero rows under on_empty = skip_remaining: the engine still executes
the second step, because the break in the source exits only the Go switch,
and the run completes having executed every step; the claim says the
remaining steps are skipped. The fail half of the claim does hold: with
on_empty = fail the run stops at that step with status failed. -/
theorem engineRun_skip_remaining_executes_rest :
    engineRun [⟨OnEmptyAction.OnEmptySkipRemaining, Except.ok 0⟩,
               ⟨OnEmptyAction.OnEmptyContinue, Except.ok 3⟩]
        = ([0, 1], RunStatus.RunStatusCompleted)
      ∧ engineRun [⟨OnEmptyAction.OnEmptyFail, Except.ok 0⟩,
                   ⟨OnEmptyAction.OnEmptyContinue, Except.ok 3⟩]
        = ([0], RunStatus.RunStatusFailed) := by
  constructor
  · rfl
  · rfl

/-- The delta computation at the end of Engine.executeStep: DeltaScore is
assigned only when RowsIn > 0 and otherwise keeps its zero value; the float64
arithmetic is modelled over the rationals. -/
def stepDeltaScore (rowsIn rowsOut : ℤ) : ℚ :=
  if 0 < rowsIn then 1 - (rowsOut : ℚ) / (rowsIn : ℚ) else 0

/-- C6 (amended): the recorded delta_score equals
1 - rows_out / max(1, rows_in) whenever rows_in > 0 (where the max is the
identity); when rows_in is 0 the recorded delta_score is 0, not
1 - rows_out. -/
theorem stepDeltaScore_formula (rowsIn rowsOut : ℤ) :
    (0 < rowsIn → stepDeltaScore rowsIn rowsOut
        = 1 - (rowsOut : ℚ) / ((max 1 rowsIn : ℤ) : ℚ))
    ∧ (rowsIn ≤ 0 → stepDeltaScore rowsIn rowsOut = 0) := by
  constructor
  · intro h
    have hm : max 1 rowsIn = rowsIn := by omega
    rw [stepDeltaScore, if_pos h, hm]
  · intro h
    rw [stepDeltaScore, if_neg (by omega)]

/-- Witness for C6 (amended) at rows_in = 3, rows_out = 2. -/
theorem stepDeltaScore_formula_witness :
    stepDeltaScore 3 2 = 1 - (2 : ℚ) / ((max 1 3 : ℤ) : ℚ) :=
  (stepDeltaScore_formula 3 2).1 (by norm_num)

/-- Counterexample for C6 as stated: at rows_in = 0, rows_out = 5 the code
records delta_score 0, while the claim formula 1 - rows_out / max(1, rows_in)
gives -4. -/
theorem stepDeltaScore_counterexample :
    stepDeltaScore 0 5 = 0 ∧
    1 - (5 : ℚ) / ((max 1 0 : ℤ) : ℚ) = -4 ∧
    stepDeltaScore 0 5 ≠ 1 - (5 : ℚ) / ((max 1 0 : ℤ) : ℚ) := by
  refine ⟨by rfl, by norm_num, ?_⟩
  rw [show stepDeltaScore 0 5 = 0 from rfl]
  norm_num

/-- A materialized table row: column names paired with their text values. -/
abbrev Row := List (String × String)

/-- HashConfig of the workflow package. -/
structure HashConfig where
  algorithm : String
  columns : List String
  outputColumn : String
  deriving DecidableEq

/-- The value hex(zeroblob(32)), which the hash step stores: the hexadecimal
encoding of 32 zero bytes, a 64-character all-zeros string. -/
def zeroblob32Hex : String := String.mk (List.replicate 64 '0')

/-- Engine.executeHash: creates the output table as the source rows extended
with one column, named by the config output_column (defaulting to hash),
whose value in every row is the constant hex(zeroblob(32)); the joined column
list from the config is computed by the source but never used in the
query. -/
def executeHash (cfg : HashConfig) (source : List Row) : List Row :=
  let outCol := if cfg.outputColumn = "" then "hash" else cfg.outputColumn
  source.map (fun row => row ++ [(outCol, zeroblob32Hex)])

/-- C1: evaluation of the hash step on two rows with distinct content values:
both output rows carry the identical constant placeholder hex(zeroblob(32))
in the added hash column, independent of the values of the named columns,
rather than a SHA-256 content hash of those values. -/
theorem executeHash_constant_placeholder :
    executeHash ⟨"sha256", ["content"], ""⟩
        [[("content", "hello")], [("content", "world")]]
      = [[("content", "hello"), ("hash", zeroblob32Hex)],
         [("content", "world"), ("hash", zeroblob32Hex)]]
    ∧ zeroblob32Hex
      = "0000000000000000000000000000000000000000000000000000000000000000" := by
  constructor
  · rfl
  · decide

/-! ## DB.Transaction (internal/db/db.go) -/

/-- The error returned by DB.Transaction when fn fails: either the primary
error alone (the rollback succeeded), or, when tx.Rollback itself fails, a
combined error reporting the rollback error and wrapping the primary one. -/
inductive TxError (ε : Type)
  | primary (e : ε)
  | rollbackFailed (rollbackErr : ε) (primaryErr : ε)
  deriving DecidableEq

/-- DB.Transaction: runs fn inside a transaction over state s, modelling the
executions in which BeginTx and Commit succeed; it commits the new state when
fn returns nil, rolls the state back to s when fn returns an error, and when
the rollback itself fails (rollbackOutcome holds the rollback error) it
reports that error alongside the primary one. -/
def dbTransaction {σ ε : Type} (rollbackOutcome : Option ε)
    (fn : σ → Except ε σ) (s : σ) : σ × Option (TxError ε) :=
  match fn s with
  | Except.ok s2 => (s2, none)
  | Except.error e =>
    match rollbackOutcome with
    | none => (s, some (TxError.primary e))
    | some rb => (s, some (TxError.rollbackFailed rb e))

/-- C5: DB.Transaction commits the state produced by fn when fn returns nil;
when fn returns an error it rolls the state back unchanged and the returned
error carries the primary error, together with the rollback error when the
rollback itself fails. In particular any transaction body that errors — such
as the merge body that Merger.mergeRun passes to Transaction — leaves the
corpus state unchanged. -/
theorem dbTransaction_spec {σ ε : Type} (rollbackOutcome : Option ε)
    (fn : σ → Except ε σ) (s : σ) :
    (∀ s2, fn s = Except.ok s2 → dbTransaction rollbackOutcome fn s = (s2, none))
    ∧ (∀ e, fn s = Except.error e →
        (dbTransaction rollbackOutcome fn s).1 = s
        ∧ (dbTransaction rollbackOutcome fn s).2
            = some (match rollbackOutcome with
                    | none => TxError.primary e
                    | some rb => TxError.rollbackFailed rb e)) := by
  constructor
  · intro s2 h
    simp [dbTransaction, h]
  · intro e h
    cases rollbackOutcome <;> simp [dbTransaction, h]

/-- Witness for C5 at a concrete committing body over Nat states and a
concrete erroring body whose rollback also fails. -/
theorem dbTransaction_spec_witness :
    dbTransaction (none : Option String) (fun n : Nat => Except.ok (n + 1)) 0 = (1, none)
    ∧ (dbTransaction (some "disk full") (fun _ : Nat => Except.error "boom") 7).1 = 7
    ∧ (dbTransaction (some "disk full") (fun _ : Nat => Except.error "boom") 7).2
        = some (TxError.rollbackFailed "disk full" "boom") := by
  refine ⟨(dbTransaction_spec none _ 0).1 1 rfl, ?_, ?_⟩
  · exact ((dbTransaction_spec (some "disk full") (fun _ : Nat => Except.error "boom") 7).2
      "boom" rfl).1
  · exact ((dbTransaction_spec (some "disk full") (fun _ : Nat => Except.error "boom") 7).2
      "boom" rfl).2

/-! ## Merger (internal/merger/merger.go) and corpus-db state -/

/-- A chunks row of corpus-db, with the columns the merge query writes. -/
structure ChunkRow where
  id : String
  fileId : String
  unitIds : String
  content : String
  tokenCount : Int
  chunkType : String
  overlapPrev : Int
  overlapNext : Int
  hash : String
  position : Int
  parentId : Option String
  createdByRun : String
  deriving DecidableEq

/-- A chunk row of the run-db _output table: as ChunkRow but without
created_by_run, which the merge query supplies. -/
structure OutputChunkRow where
  id : String
  fileId : String
  unitIds : String
  content : String
  tokenCount : Int
  chunkType : String
  overlapPrev : Int
  overlapNext : Int
  hash : String
  position : Int
  parentId : Option String
  deriving DecidableEq

/-- A chunk_features row; primary key (chunk_id, feature_name). -/
structure FeatureRow where
  chunkId : String
  featureName : String
  featureValue : ℚ
  featureMeta : Option String
  deriving DecidableEq

/-- A chunk_vectors row; primary key (chunk_id, layer). -/
structure VectorRow where
  chunkId : String
  layer : String
  vector : List Nat
  dimensions : Nat
  modelVersion : String
  deriving DecidableEq

/-- A chunk_relations row; primary key (from, to, relation_type). -/
structure RelationRow where
  fromChunkId : String
  toChunkId : String
  relationType : String
  weight : ℚ
  createdByRun : String
  deriving DecidableEq

/-- A run-db _output_relations row, without created_by_run. -/
structure OutputRelationRow where
  fromChunkId : String
  toChunkId : String
  relationType : String
  weight : ℚ
  deriving DecidableEq

/-- A run_history row of corpus-db; primary key run_id. -/
structure HistoryRow where
  runId : String
  workflowId : String
  workflowVersion : Int
  startedAt : String
  finishedAt : String
  status : String
  rowsProduced : Int
  mergeStatus : String
  deriving DecidableEq

/-- A raw_files row with the columns written by either ingest path; the two
optional columns model SQL NULL. -/
structure RawFileRow where
  id : String
  sourcePath : String
  mimeType : String
  size : Int
  content : Option (List Nat)
  externalPath : Option String
  checksum : String
  status : String
  deriving DecidableEq

/-- The corpus-db tables the merger writes. -/
structure CorpusState where
  chunks : List ChunkRow
  chunkFeatures : List FeatureRow
  chunkVectors : List VectorRow
  chunkRelations : List RelationRow
  runHistory : List HistoryRow
  rawFiles : List RawFileRow
  deriving DecidableEq

/-- The _run_meta row of a run-db. -/
structure RunMeta where
  runId : String
  workflowId : String
  workflowVersion : Int
  inputSource : String
  startedAt : String
  finishedAt : String
  status : String
  deriving DecidableEq

/-- A run-db as the merger reads it: the run metadata and the optional output
tables; none models a table that does not exist in the run-db. -/
structure RunDB where
  meta : RunMeta
  output : Option (List OutputChunkRow)
  outputFeatures : Option (List FeatureRow)
  outputVectors : Option (List VectorRow)
  outputRelations : Option (List OutputRelationRow)

/-- INSERT OR IGNORE: rows are processed in order; a row whose key is already
present is skipped. Returns the new table and the number of rows actually
inserted (RowsAffected). -/
def insertOrIgnore {α : Type} (sameKey : α → α → Bool)
    (t rows : List α) : List α × Nat :=
  rows.foldl (fun acc row =>
    if acc.1.any (fun x => sameKey x row) then acc
    else (acc.1 ++ [row], acc.2 + 1)) (t, 0)

/-- INSERT OR REPLACE: rows are processed in order; a conflicting existing
row is deleted and the new row inserted. -/
def insertOrReplace {α : Type} (sameKey : α → α → Bool)
    (t rows : List α) : List α :=
  rows.foldl (fun acc row => acc.filter (fun x => ¬ sameKey x row) ++ [row]) t

def chunkKeyEq (a b : ChunkRow) : Bool := a.id == b.id

def featureKeyEq (a b : FeatureRow) : Bool :=
  a.chunkId == b.chunkId && a.featureName == b.featureName

def vectorKeyEq (a b : VectorRow) : Bool :=
  a.chunkId == b.chunkId && a.layer == b.layer

def relationKeyEq (a b : RelationRow) : Bool :=
  a.fromChunkId == b.fromChunkId && a.toChunkId == b.toChunkId
    && a.relationType == b.relationType

def historyKeyEq (a b : HistoryRow) : Bool := a.runId == b.runId

/-- The SELECT of mergeChunks: an _output row extended with
created_by_run = run_id. -/
def outputChunkToChunkRow (runId : String) (c : OutputChunkRow) : ChunkRow :=
  { id := c.id, fileId := c.fileId, unitIds := c.unitIds, content := c.content,
    tokenCount := c.tokenCount, chunkType := c.chunkType,
    overlapPrev := c.overlapPrev, overlapNext := c.overlapNext,
    hash := c.hash, position := c.position, parentId := c.parentId,
    createdByRun := runId }

/-- The SELECT of mergeRelations: an _output_relations row extended with
created_by_run = run_id. -/
def outputRelationToRelationRow (runId : String) (r : OutputRelationRow) : RelationRow :=
  { fromChunkId := r.fromChunkId, toChunkId := r.toChunkId,
    relationType := r.relationType, weight := r.weight, createdByRun := runId }

/-- The idempotency gate of mergeRun: whether run_history already records
this run with merge_status merged. -/
def historyMerged (hist : List HistoryRow) (runId : String) : Bool :=
  hist.any (fun h => h.runId == runId && h.mergeStatus == "merged")

/-- The run_history row mergeRun writes: the _run_meta columns with
rows_produced set to the number of chunks inserted and merge_status
merged. -/
def mergedHistoryRow (meta : RunMeta) (chunksInserted : Nat) : HistoryRow :=
  { runId := meta.runId, workflowId := meta.workflowId,
    workflowVersion := meta.workflowVersion, startedAt := meta.startedAt,
    finishedAt := meta.finishedAt, status := meta.status,
    rowsProduced := Int.ofNat chunksInserted, mergeStatus := "merged" }

/-- The corpus state produced by the merge transaction body when the run-db
has an _output table with the given rows: chunks via INSERT OR IGNORE with
created_by_run set, features and vectors via INSERT OR REPLACE on their
composite keys, relations via INSERT OR IGNORE, the run_history row with
merge_status merged, and raw_files.status set to vectorized for every file
appearing in _output. -/
def mergedState (r : RunDB) (rows : List OutputChunkRow) (σ : CorpusState) : CorpusState :=
  let chunksMerged :=
    insertOrIgnore chunkKeyEq σ.chunks (rows.map (outputChunkToChunkRow r.meta.runId))
  let fileIds := rows.map (fun c => c.fileId)
  { chunks := chunksMerged.1,
    chunkFeatures :=
      match r.outputFeatures with
      | none => σ.chunkFeatures
      | some fr => insertOrReplace featureKeyEq σ.chunkFeatures fr,
    chunkVectors :=
      match r.outputVectors with
      | none => σ.chunkVectors
      | some vr => insertOrReplace vectorKeyEq σ.chunkVectors vr,
    chunkRelations :=
      match r.outputRelations with
      | none => σ.chunkRelations
      | some rr =>
          (insertOrIgnore relationKeyEq σ.chunkRelations
            (rr.map (outputRelationToRelationRow r.meta.runId))).1,
    runHistory :=
      insertOrReplace historyKeyEq σ.runHistory
        [mergedHistoryRow r.meta chunksMerged.2],
    rawFiles :=
      σ.rawFiles.map (fun f =>
        if fileIds.contains f.id then { f with status := "vectorized" } else f) }

/-- The transaction body of Merger.mergeRun. The per-table merges each check
sqlite_master for the run-db table and skip a missing table, but the final
raw_files UPDATE references run_src._output unconditionally, so when the
run-db has no _output table the body errors and the transaction rolls back
(the SQL statements before the failing one are discarded by the rollback, so
computing the would-be state first is equivalent). -/
def mergeBody (r : RunDB) (σ : CorpusState) : Except String CorpusState :=
  match r.output with
  | none => Except.error "update file status: no such table: run_src._output"
  | some rows => Except.ok (mergedState r rows σ)

/-- Merger.mergeRun: verifies the run completed, skips when run_history
already records the run as merged, and otherwise performs the merge inside
DB.Transaction; modelled for the executions in which the run-db file exists
and attach, detach and the metadata reads succeed. -/
def mergeRun (σ : CorpusState) (r : RunDB) : CorpusState × Except String Unit :=
  if r.meta.status ≠ "completed" then
    (σ, Except.error ("run not completed, status: " ++ r.meta.status))
  else if historyMerged σ.runHistory r.meta.runId then
    (σ, Except.ok ())
  else
    match dbTransaction none (mergeBody r) σ with
    | (σ2, none) => (σ2, Except.ok ())
    | (σ2, some _) => (σ2, Except.error "merge transaction failed")

theorem historyMerged_insertOrReplace (hist : List HistoryRow) (row : HistoryRow)
    (h : row.mergeStatus = "merged") :
    historyMerged (insertOrReplace historyKeyEq hist [row]) row.runId = true := by
  simp [historyMerged, insertOrReplace, List.any_append, h]

theorem historyMerged_mergedState (r : RunDB) (rows : List OutputChunkRow)
    (σ : CorpusState) :
    historyMerged (mergedState r rows σ).runHistory r.meta.runId = true := by
  have h := historyMerged_insertOrReplace σ.runHistory
    (mergedHistoryRow r.meta
      (insertOrIgnore chunkKeyEq σ.chunks
        (rows.map (outputChunkToChunkRow r.meta.runId))).2) rfl
  simpa [mergedState, mergedHistoryRow] using h

theorem mergeRun_already_merged (σ : CorpusState) (r : RunDB)
    (h1 : r.meta.status = "completed")
    (h2 : historyMerged σ.runHistory r.meta.runId = true) :
    mergeRun σ r = (σ, Except.ok ()) := by
  unfold mergeRun
  rw [if_neg (by simp [h1]), if_pos h2]

/-- C4: merging is idempotent. When corpus-db run_history already records the
run as merged, mergeRun performs no write and returns the state unchanged;
and, for any starting corpus state, running mergeRun a second time on the
same completed run-db leaves the corpus state exactly as it was after the
first invocation. -/
theorem mergeRun_idempotent (σ : CorpusState) (r : RunDB)
    (h1 : r.meta.status = "completed")
    (h2 : historyMerged σ.runHistory r.meta.runId = true) :
    mergeRun σ r = (σ, Except.ok ())
    ∧ ∀ σ0 : CorpusState, (mergeRun (mergeRun σ0 r).1 r).1 = (mergeRun σ0 r).1 := by
  refine ⟨mergeRun_already_merged σ r h1 h2, ?_⟩
  intro σ0
  by_cases hm : historyMerged σ0.runHistory r.meta.runId = true
  · rw [mergeRun_already_merged σ0 r h1 hm]
    rw [mergeRun_already_merged σ0 r h1 hm]
  · have hrun : ∀ τ : CorpusState,
        ¬ historyMerged τ.runHistory r.meta.runId = true →
        mergeRun τ r
          = match dbTransaction none (mergeBody r) τ with
            | (σ2, none) => (σ2, Except.ok ())
            | (σ2, some _) => (σ2, Except.error "merge transaction failed") := by
      intro τ hτ
      unfold mergeRun
      rw [if_neg (by simp [h1]), if_neg hτ]
    rw [hrun σ0 hm]
    cases hout : r.output with
    | none =>
        have hb : mergeBody r σ0
            = Except.error "update file status: no such table: run_src._output" := by
          simp [mergeBody, hout]
        simp only [dbTransaction, hb]
        rw [hrun σ0 hm]
        simp only [dbTransaction, hb]
    | some rows =>
        have hb : mergeBody r σ0 = Except.ok (mergedState r rows σ0) := by
          simp [mergeBody, hout]
        simp only [dbTransaction, hb]
        rw [mergeRun_already_merged (mergedState r rows σ0) r h1
          (historyMerged_mergedState r rows σ0)]

/-- Witness for C4 at a concrete corpus state whose run_history already
records run r1 as merged, and a concrete completed run-db for r1. -/
theorem mergeRun_idempotent_witness :
    mergeRun
      { chunks := [], chunkFeatures := [], chunkVectors := [],
        chunkRelations := [],
        runHistory := [{ runId := "r1", workflowId := "wf",
                         workflowVersion := 1, startedAt := "t0",
                         finishedAt := "t1", status := "completed",
                         rowsProduced := 3, mergeStatus := "merged" }],
        rawFiles := [] }
      { meta := { runId := "r1", workflowId := "wf", workflowVersion := 1,
                  inputSource := "", startedAt := "t0", finishedAt := "t1",
                  status := "completed" },
        output := some [], outputFeatures := none, outputVectors := none,
        outputRelations := none }
      = ({ chunks := [], chunkFeatures := [], chunkVectors := [],
           chunkRelations := [],
           runHistory := [{ runId := "r1", workflowId := "wf",
                            workflowVersion := 1, startedAt := "t0",
                            finishedAt := "t1", status := "completed",
                            rowsProduced := 3, mergeStatus := "merged" }],
           rawFiles := [] }, Except.ok ()) :=
  (mergeRun_idempotent _ _ rfl (by decide)).1

/-! ## Orchestrator.Ingest (internal/orchestrator/orchestrator.go) -/

/-- An audit_log row as Ingest writes it; the JSON details payload is
modelled by its fields. -/
structure AuditRow where
  actor : String
  action : String
  target : String
  detailsPath : String
  detailsMime : String
  detailsSize : Int
  deriving DecidableEq

/-- The state Ingest touches: the raw_files table, the audit log, and the
content-addressed external blob store under dataDir/storage/raw, modelled as
path-content pairs. -/
structure IngestState where
  rawFiles : List RawFileRow
  auditLog : List AuditRow
  storageFiles : List (String × List Nat)
  deriving DecidableEq

/-- Orchestrator.Ingest as cited: reads the file, hashes the content
(sha256Hex is the SHA-256 hex digest, a parameter of the model), detects the
MIME type (mimeFn), returns the existing id when a raw_files row with this id
exists, and otherwise inserts a row whose content column holds the full file
bytes, with checksum equal to the id and status pending, then appends an
audit row. The insert names no external_path column and nothing is written to
the external blob store. -/
def ingest (sha256Hex : List Nat → String) (mimeFn : String → List Nat → String)
    (s : IngestState) (path : String) (content : List Nat) :
    IngestState × String :=
  let id := sha256Hex content
  let mimeType := mimeFn path content
  if s.rawFiles.any (fun f => f.id == id) then (s, id)
  else
    let row : RawFileRow :=
      { id := id, sourcePath := path, mimeType := mimeType,
        size := Int.ofNat content.length, content := some content,
        externalPath := none, checksum := id, status := "pending" }
    ({ rawFiles := s.rawFiles ++ [row],
       auditLog := s.auditLog ++
         [{ actor := "orchestrator", action := "ingest", target := id,
            detailsPath := path, detailsMime := mimeType,
            detailsSize := Int.ofNat content.length }],
       storageFiles := s.storageFiles }, id)

theorem ingest_fresh_insert (sha256Hex : List Nat → String)
    (mimeFn : String → List Nat → String) (s : IngestState)
    (path : String) (content : List Nat)
    (h : s.rawFiles.any (fun f => f.id == sha256Hex content) = false) :
    (ingest sha256Hex mimeFn s path content).1.storageFiles = s.storageFiles
    ∧ (ingest sha256Hex mimeFn s path content).1.rawFiles
        = s.rawFiles ++
            [{ id := sha256Hex content, sourcePath := path,
               mimeType := mimeFn path content,
               size := Int.ofNat content.length, content := some content,
               externalPath := none, checksum := sha256Hex content,
               status := "pending" }] := by
  unfold ingest
  rw [if_neg (by simp [h])]
  exact ⟨rfl, rfl⟩

/-- C3: evaluation of the cited Ingest on a fresh file (bytes of hello) over
the empty state: the external blob store stays empty — no file is created
under dataDir/storage/raw — and the inserted raw_files row embeds the full
file bytes in its content column with no external_path, contradicting the
claim that the bytes are copied to the content-addressed store and referenced
via external_path. -/
theorem ingest_embeds_bytes_no_external_store :
    (ingest (fun _ => "h1") (fun _ _ => "text/plain")
        { rawFiles := [], auditLog := [], storageFiles := [] }
        "hello.txt" [104, 101, 108, 108, 111]).1.storageFiles = []
    ∧ (ingest (fun _ => "h1") (fun _ _ => "text/plain")
        { rawFiles := [], auditLog := [], storageFiles := [] }
        "hello.txt" [104, 101, 108, 108, 111]).1.rawFiles
        = [{ id := "h1", sourcePath := "hello.txt", mimeType := "text/plain",
             size := 5, content := some [104, 101, 108, 108, 111],
             externalPath := none, checksum := "h1", status := "pending" }] :=
  ingest_fresh_insert (fun _ => "h1") (fun _ _ => "text/plain")
    { rawFiles := [], auditLog := [], storageFiles := [] }
    "hello.txt" [104, 101, 108, 108, 111] rfl
